import Mathlib

/-!
# Verification of the GoodRAW color pipeline and viewport transform model

Shallow embedding of the color-managed image pipeline and the interactive
viewport math of the GoodRAW RAW photo viewer.

* Color matrices and per-pixel color-space conversion are translated from
  `src/goodraw/include/colortransform.h` over exact rationals (the C++ code
  uses `float`; real/rational arithmetic is the idealized semantics, and the
  claims under test are either exact algebraic identities or carry explicit
  tolerances).
* The fragment-shader shading chain is translated from
  `src/goodraw/include/glsl_shaders.h` over the reals (the sRGB gamma branch
  uses a real power `pow(linear, 1.0/2.4)`).
* The viewport/wheel-zoom math is translated from
  `src/goodraw/src/glimagewidget.cpp` (the matrix-based variant, which builds
  Imath row-vector affine transforms).
* The aspect-scale computation is translated from
  `GLImageWidget::updateAspectScale` over a small IEEE-style float model
  (rationals plus a positive-infinity value) because its behavior on a
  zero-height viewport hinges on IEEE division by zero.
-/

/-! ## 3-vectors and 3×3 matrices (colortransform.h) -/

/-- An RGB triple, channel order R,G,B (one pixel of a `HalfImage`). -/
structure Vec3 (α : Type) where
  r : α
  g : α
  b : α
deriving DecidableEq, Repr

/-- A 3×3 color matrix, row-major entries `m[i][j]` as in the C source. -/
structure Mat3 (α : Type) where
  m00 : α
  m01 : α
  m02 : α
  m10 : α
  m11 : α
  m12 : α
  m20 : α
  m21 : α
  m22 : α
deriving DecidableEq, Repr

/-- `applyMatrix3x3` (colortransform.h lines 157-162): in-place
`rr = M[0][0]*r + M[0][1]*g + M[0][2]*b` etc., i.e. matrix × column vector. -/
def applyMatrix3x3 {α : Type} [CommRing α] (M : Mat3 α) (v : Vec3 α) : Vec3 α :=
  ⟨M.m00 * v.r + M.m01 * v.g + M.m02 * v.b,
   M.m10 * v.r + M.m11 * v.g + M.m12 * v.b,
   M.m20 * v.r + M.m21 * v.g + M.m22 * v.b⟩

/-- `multiplyMatrix3x3` (colortransform.h lines 244-250):
`result[i][j] = A[i][0]*B[0][j] + A[i][1]*B[1][j] + A[i][2]*B[2][j]`. -/
def multiplyMatrix3x3 {α : Type} [CommRing α] (A B : Mat3 α) : Mat3 α :=
  ⟨A.m00 * B.m00 + A.m01 * B.m10 + A.m02 * B.m20,
   A.m00 * B.m01 + A.m01 * B.m11 + A.m02 * B.m21,
   A.m00 * B.m02 + A.m01 * B.m12 + A.m02 * B.m22,
   A.m10 * B.m00 + A.m11 * B.m10 + A.m12 * B.m20,
   A.m10 * B.m01 + A.m11 * B.m11 + A.m12 * B.m21,
   A.m10 * B.m02 + A.m11 * B.m12 + A.m12 * B.m22,
   A.m20 * B.m00 + A.m21 * B.m10 + A.m22 * B.m20,
   A.m20 * B.m01 + A.m21 * B.m11 + A.m22 * B.m21,
   A.m20 * B.m02 + A.m21 * B.m12 + A.m22 * B.m22⟩

/-- The identity calibration matrix (a possible `cam_xyz` from decoder
metadata; used by the spec scenario with a known calibration = identity). -/
def identityMat3 : Mat3 ℚ :=
  ⟨1, 0, 0, 0, 1, 0, 0, 0, 1⟩

/-- `XYZ_to_AP0` (colortransform.h lines 90-94, identical at lines 19-23,
195-199 and 266-270). -/
def XYZ_to_AP0 : Mat3 ℚ :=
  ⟨0.9525523959, 0, 0.0000936786,
   0.3439664498, 0.7281660966, -0.0721325464,
   0, 0, 1.0088251844⟩

/-- `AP0_to_AP1` (colortransform.h lines 97-101, identical at lines 25-29). -/
def AP0_to_AP1 : Mat3 ℚ :=
  ⟨1.4514393161, -0.2365107469, -0.2149285693,
   -0.0765537733, 1.1762296998, -0.0996759265,
   0.0083161484, -0.0060324498, 0.9977163014⟩

/-- `AP0_to_AP1` as spelled in the combined-matrix variants (colortransform.h
lines 203-207 and 274-278; two entries differ from `AP0_to_AP1` in the last
printed digit: -0.0765537734 and -0.0996759264). -/
def AP0_to_AP1opt : Mat3 ℚ :=
  ⟨1.4514393161, -0.2365107469, -0.2149285693,
   -0.0765537734, 1.1762296998, -0.0996759264,
   0.0083161484, -0.0060324498, 0.9977163014⟩

/-- `XYZ_to_sRGB` (colortransform.h lines 187-191). -/
def XYZ_to_sRGB : Mat3 ℚ :=
  ⟨3.2404542, -1.5371385, -0.4985314,
   -0.9692660, 1.8760108, 0.0415560,
   0.0556434, -0.2040259, 1.0572252⟩

/-- Per-pixel body of `cameraToACEScg` (colortransform.h lines 81-116, same
loop body at lines 31-39): `applyMatrix3x3(cam2xyz)` then
`applyMatrix3x3(XYZ_to_AP0)` then `applyMatrix3x3(AP0_to_AP1)`. -/
def cameraToACEScgPixel (cam2xyz : Mat3 ℚ) (v : Vec3 ℚ) : Vec3 ℚ :=
  applyMatrix3x3 AP0_to_AP1 (applyMatrix3x3 XYZ_to_AP0 (applyMatrix3x3 cam2xyz v))

/-- Per-pixel body of the `cameraToACEScg` variant at colortransform.h lines
177-232: `applyMatrix3x3(cam2xyz)` then `applyMatrix3x3(XYZ_to_sRGB)`; the
`XYZ_to_AP0` and `AP0_to_AP1` applications are commented out
("DEBUG: Skip ACES transforms and go directly to sRGB"). -/
def cameraToACEScgDebugPixel (cam2xyz : Mat3 ℚ) (v : Vec3 ℚ) : Vec3 ℚ :=
  applyMatrix3x3 XYZ_to_sRGB (applyMatrix3x3 cam2xyz v)

/-- Per-pixel body of `xyzToACEScg` (colortransform.h lines 263-315): the
combined matrix `XYZ_to_ACEScg = multiplyMatrix3x3(AP0_to_AP1, XYZ_to_AP0)`
is precomputed once, then applied inline per pixel (lines 307-309). -/
def xyzToACEScgPixel (v : Vec3 ℚ) : Vec3 ℚ :=
  let C := multiplyMatrix3x3 AP0_to_AP1opt XYZ_to_AP0
  ⟨C.m00 * v.r + C.m01 * v.g + C.m02 * v.b,
   C.m10 * v.r + C.m11 * v.g + C.m12 * v.b,
   C.m20 * v.r + C.m21 * v.g + C.m22 * v.b⟩

/-! ## Fragment shader shading chain (glsl_shaders.h) -/

noncomputable section

open Real

/-- GLSL `clamp(x, lo, hi) = min(max(x, lo), hi)`. -/
def clampGL (x lo hi : ℝ) : ℝ := min (max x lo) hi

/-- GLSL `step(edge, x)`: `0.0` if `x < edge`, else `1.0`. -/
def stepGL (edge x : ℝ) : ℝ := if x < edge then 0 else 1

/-- GLSL `mix(a, b, t) = a*(1-t) + b*t`. -/
def mixGL (a b t : ℝ) : ℝ := a * (1 - t) + b * t

/-- `acesToneMap` (glsl_shaders.h lines 58-61, scalar per channel; identical
formula as `ACESFilm` and as the float `acesToneMap` in the CPU display
transform): `clamp((x*(a*x+b))/(x*(c*x+d)+e), 0.0, 1.0)` with
`a = 2.51, b = 0.03, c = 2.43, d = 0.59, e = 0.14`. -/
def acesToneMap (x : ℝ) : ℝ :=
  let a : ℝ := 2.51
  let b : ℝ := 0.03
  let c : ℝ := 2.43
  let d : ℝ := 0.59
  let e : ℝ := 0.14
  clampGL ((x * (a * x + b)) / (x * (c * x + d) + e)) 0 1

/-- `linearToSRGB` (glsl_shaders.h lines 64-70, scalar per channel):
`mix(12.92*linear, 1.055*pow(linear, 1.0/2.4) - 0.055, step(0.0031308, linear))`.
The power is the real power `Real.rpow`. -/
def linearToSRGB (linear : ℝ) : ℝ :=
  mixGL (12.92 * linear) (1.055 * linear ^ ((1 : ℝ) / 2.4) - 0.055)
    (stepGL 0.0031308 linear)

/-- `ACEScg_to_Rec709` (glsl_shaders.h lines 53-57). The GLSL `mat3`
constructor takes columns; the listed triples are columns, so row `i` of the
mathematical matrix collects the `i`-th entries of the three triples. -/
def ACEScg_to_Rec709 : Mat3 ℝ :=
  ⟨1.7050515, -0.6217905, -0.0832610,
   -0.1302597, 1.1408027, -0.0105430,
   -0.0240003, -0.1289687, 1.1529690⟩

/-- The contrast line of the fragment shader `main` (glsl_shaders.h line 88),
per channel: `max(0.0, (x - 0.18) * contrast + 0.18)` — contrast around 18%
gray, clamped to prevent negative values. -/
def contrastAdjust (contrast x : ℝ) : ℝ :=
  max 0 ((x - 0.18) * contrast + 0.18)

/-- The shading chain of the fragment shader `main` (glsl_shaders.h lines
82-97), for an in-range texture coordinate, as a function of the sampled
texel: `acesCg *= wb; acesCg *= pow(2.0, exposure);
acesCg = max(vec3(0.0), (acesCg - 0.18)*contrast + 0.18);
rec709 = ACEScg_to_Rec709 * acesCg; display = acesToneMap(rec709);
srgb = linearToSRGB(display)`.  (The out-of-range early return to black and
the optional grid overlay of lines 77-80 and 100-104 do not touch this
chain and are omitted.) -/
def fragShade (wb : Vec3 ℝ) (exposure contrast : ℝ) (texel : Vec3 ℝ) : Vec3 ℝ :=
  let c1 : Vec3 ℝ := ⟨texel.r * wb.r, texel.g * wb.g, texel.b * wb.b⟩
  let gain : ℝ := (2 : ℝ) ^ exposure
  let c2 : Vec3 ℝ := ⟨c1.r * gain, c1.g * gain, c1.b * gain⟩
  let c3 : Vec3 ℝ := ⟨contrastAdjust contrast c2.r,
                      contrastAdjust contrast c2.g,
                      contrastAdjust contrast c2.b⟩
  let c4 : Vec3 ℝ := applyMatrix3x3 ACEScg_to_Rec709 c3
  let c5 : Vec3 ℝ := ⟨acesToneMap c4.r, acesToneMap c4.g, acesToneMap c4.b⟩
  ⟨linearToSRGB c5.r, linearToSRGB c5.g, linearToSRGB c5.b⟩

end

/-! ## Aspect-scale computation (GLImageWidget::updateAspectScale) -/

/-- A nonnegative IEEE-style float value: a finite rational or `+∞`.  The
inputs of `updateAspectScale` (widget and image dimensions, aspect ratios)
are nonnegative, so this fragment of IEEE float arithmetic suffices. -/
inductive GlFloat where
  | fin (q : ℚ)
  | posInf
deriving DecidableEq, Repr

/-- IEEE float division restricted to nonnegative values: a finite positive
numerator divided by `+0` gives `+∞`, and a finite numerator divided by `+∞`
gives `0`.  (`0/0` is NaN in IEEE; it never arises in the modelled calls
because the zero-image guard of `updateAspectScale` keeps image dimensions
nonzero and the widget width is nonzero in every scenario considered, so we
map that unused case to `+∞` arbitrarily.) -/
def fdiv : GlFloat → GlFloat → GlFloat
  | .fin a, .fin b => if b = 0 then .posInf else .fin (a / b)
  | .fin _, .posInf => .fin 0
  | .posInf, _ => .posInf

/-- IEEE comparison `a > b` on the nonnegative float model. -/
def fgt : GlFloat → GlFloat → Bool
  | .fin a, .fin b => a > b
  | .fin _, .posInf => false
  | .posInf, .fin _ => true
  | .posInf, .posInf => false

/-- `GLImageWidget::updateAspectScale` (glimagewidget.cpp lines 336-360):
if there is no texture or the image has a zero dimension, set
`aspectScale = (1,1)` and return; otherwise compute
`widgetAspect = width()/height()` and `imageAspect = imgW/imgH` in float
arithmetic and set `aspectScale = (1, widgetAspect/imageAspect)` when
`imageAspect > widgetAspect`, else `(imageAspect/widgetAspect, 1)`.
Arguments: texture presence, image dimensions, widget dimensions, and the
previous `aspectScale` (which the C++ member variable would retain only if
the function did not assign it). -/
def updateAspectScale (texPresent : Bool) (imgW imgH : ℕ) (widgetW widgetH : ℕ)
    (oldScale : GlFloat × GlFloat) : GlFloat × GlFloat :=
  if texPresent = false ∨ imgW = 0 ∨ imgH = 0 then
    (.fin 1, .fin 1)
  else
    let widgetAspect := fdiv (.fin widgetW) (.fin widgetH)
    let imageAspect := fdiv (.fin imgW) (.fin imgH)
    if fgt imageAspect widgetAspect then
      (.fin 1, fdiv widgetAspect imageAspect)
    else
      (fdiv imageAspect widgetAspect, .fin 1)
  -- `oldScale` is returned by no branch: the function always reassigns.

/-! ## Widget state and viewport transform model (glimagewidget.cpp) -/

/-- `CropTransform` (glimagewidget.h lines 12-16). -/
structure CropTransform where
  centerX : ℝ
  centerY : ℝ
  width : ℝ
  height : ℝ
  rotation : ℝ

/-- The mutable scalar state of `GLImageWidget` (glimagewidget.h lines
118-131) that the modelled member functions read or write: adjustment
state, viewport transform state, aspect scale and the loaded image
(dimensions plus the half-float RGB buffer, modelled as a list of reals). -/
structure WidgetState where
  exposure : ℝ
  wb : Vec3 ℝ
  contrast : ℝ
  zoom : ℝ
  panX : ℝ
  panY : ℝ
  crop : CropTransform
  rotating : Bool
  showGrid : Bool
  aspectScaleX : ℝ
  aspectScaleY : ℝ
  imgWidth : ℕ
  imgHeight : ℕ
  imgData : List ℝ

/-- `GLImageWidget::setExposure` (glimagewidget.cpp line 124):
`exposure = e; update();` (`update()` only schedules a repaint). -/
def setExposure (s : WidgetState) (e : ℝ) : WidgetState :=
  { s with exposure := e }

/-- `GLImageWidget::setWB` (glimagewidget.cpp line 125):
`wb = QVector3D(r,g,b); update();`. -/
def setWB (s : WidgetState) (r g b : ℝ) : WidgetState :=
  { s with wb := ⟨r, g, b⟩ }

/-- `GLImageWidget::setContrast` (glimagewidget.cpp line 126):
`contrast = c; update();`. -/
def setContrast (s : WidgetState) (c : ℝ) : WidgetState :=
  { s with contrast := c }

/-- `GLImageWidget::fitToViewport` (glimagewidget.cpp lines 311-319):
`zoom = 1.0; crop.centerX = 0.0; crop.centerY = 0.0; crop.rotation = 0.0;
update();`. -/
def fitToViewport (s : WidgetState) : WidgetState :=
  { s with zoom := 1,
           crop := { s.crop with centerX := 0, centerY := 0, rotation := 0 } }

noncomputable section

/-- Row-vector application of `Imath::M33f().setRotation(θ)`
(`x[0][0]=cos θ, x[0][1]=sin θ, x[1][0]=-sin θ, x[1][1]=cos θ`):
`(x,y,1) * R = (x cos θ - y sin θ, x sin θ + y cos θ, 1)`. -/
def rotPt (θ : ℝ) (p : ℝ × ℝ) : ℝ × ℝ :=
  (p.1 * Real.cos θ - p.2 * Real.sin θ, p.1 * Real.sin θ + p.2 * Real.cos θ)

/-- The pan-free part of the composed viewport transform
(glimagewidget.cpp lines 280-287, identically lines 241-251 and 266-276
before the final pan translation): with row vectors,
`T(-0.5,-0.5) * S(aspectX, aspectY) * S(totalZoom, totalZoom) * R(rotation)`,
i.e. center the quad, aspect-correct, scale by the total zoom, rotate.
(The source multiplies by `R(rotation)` only when `rotation ≠ 0`; since
`R(0)` is the identity this unconditional form is the same function.) -/
def partialTransform (aspectX aspectY θ totalZoom : ℝ) (q : ℝ × ℝ) : ℝ × ℝ :=
  rotPt θ ((q.1 - 0.5) * aspectX * totalZoom, (q.2 - 0.5) * aspectY * totalZoom)

/-- The full composed viewport transform (glimagewidget.cpp lines 241-252,
as in `paintGL` lines 160-179): the pan-free part followed by
`T(crop.centerX, crop.centerY)`, with `totalZoom = zoom * 2.0`. -/
def composedTransform (s : WidgetState) (q : ℝ × ℝ) : ℝ × ℝ :=
  let tp := partialTransform s.aspectScaleX s.aspectScaleY s.crop.rotation (s.zoom * 2) q
  (tp.1 + s.crop.centerX, tp.2 + s.crop.centerY)

/-- Exact inverse of `partialTransform` (undo rotation, zoom, aspect,
centering in reverse order).  Used to model
`clipPoint * transform.inverse()` (glimagewidget.cpp lines 255-259):
`Imath::M33f::inverse()` returns the true matrix inverse whenever the
transform is invertible, which holds when the aspect factors and the zoom
are nonzero. -/
def invPartialTransform (aspectX aspectY θ totalZoom : ℝ) (p : ℝ × ℝ) : ℝ × ℝ :=
  let u := rotPt (-θ) p
  (u.1 / (aspectX * totalZoom) + 0.5, u.2 / (aspectY * totalZoom) + 0.5)

/-- The image-space point currently under the clip-space position `c`:
`c * composedTransform⁻¹` (glimagewidget.cpp lines 255-259). -/
def imagePointUnder (s : WidgetState) (c : ℝ × ℝ) : ℝ × ℝ :=
  invPartialTransform s.aspectScaleX s.aspectScaleY s.crop.rotation (s.zoom * 2)
    (c.1 - s.crop.centerX, c.2 - s.crop.centerY)

/-- `GLImageWidget::wheelEvent` (glimagewidget.cpp lines 232-299) as a state
transition.  `clip` is the cursor position in normalized clip coordinates
(the source computes `clipX = 2*mouseX/width() - 1`,
`clipY = 1 - 2*mouseY/height()` from the event position, lines 234-238);
`deltaNotches` is `event->angleDelta().y() / 120`.  Steps: map the cursor
back to image space through the inverse of the current transform; apply
`zoom *= pow(1.1, delta)`; rebuild the pan-free transform with the new zoom;
set `crop.centerX/Y` to `clipPoint - partialTransform(imagePoint)`. -/
def wheelEvent (s : WidgetState) (deltaNotches : ℤ) (clip : ℝ × ℝ) : WidgetState :=
  let imagePoint := imagePointUnder s clip
  let newZoom := s.zoom * (1.1 : ℝ) ^ deltaNotches
  let newTotalZoom := newZoom * 2
  let tp := partialTransform s.aspectScaleX s.aspectScaleY s.crop.rotation
    newTotalZoom imagePoint
  { s with zoom := newZoom,
           crop := { s.crop with centerX := clip.1 - tp.1,
                                 centerY := clip.2 - tp.2 } }

end

/-- A concrete widget state used to instantiate theorems with hypotheses:
zoom 1, pan (0,0), rotation 0, aspect scale (1,1), neutral adjustments,
a 4×3 image. -/
noncomputable def sampleState : WidgetState :=
  ⟨0, ⟨1, 1, 1⟩, 1, 1, 0, 0, ⟨0, 0, 1, 1, 0⟩, false, false, 1, 1, 4, 3, []⟩

/-! ## Helper lemmas -/

lemma rotPt_neg_rotPt (θ : ℝ) (p : ℝ × ℝ) : rotPt (-θ) (rotPt θ p) = p := by
  unfold rotPt
  refine Prod.ext ?_ ?_ <;>
    simp only [Real.cos_neg, Real.sin_neg]
  · linear_combination p.1 * Real.sin_sq_add_cos_sq θ
  · linear_combination p.2 * Real.sin_sq_add_cos_sq θ

lemma rotPt_rotPt_neg (θ : ℝ) (p : ℝ × ℝ) : rotPt θ (rotPt (-θ) p) = p := by
  unfold rotPt
  refine Prod.ext ?_ ?_ <;>
    simp only [Real.cos_neg, Real.sin_neg]
  · linear_combination p.1 * Real.sin_sq_add_cos_sq θ
  · linear_combination p.2 * Real.sin_sq_add_cos_sq θ

lemma invPartial_partialTransform (ax ay θ tz : ℝ) (hax : ax ≠ 0) (hay : ay ≠ 0)
    (htz : tz ≠ 0) (q : ℝ × ℝ) :
    invPartialTransform ax ay θ tz (partialTransform ax ay θ tz q) = q := by
  unfold invPartialTransform partialTransform
  rw [rotPt_neg_rotPt]
  refine Prod.ext ?_ ?_ <;> dsimp only
  · field_simp
    ring
  · field_simp
    ring

lemma partialTransform_invPartial (ax ay θ tz : ℝ) (hax : ax ≠ 0) (hay : ay ≠ 0)
    (htz : tz ≠ 0) (p : ℝ × ℝ) :
    partialTransform ax ay θ tz (invPartialTransform ax ay θ tz p) = p := by
  unfold partialTransform
  have h1 : ((invPartialTransform ax ay θ tz p).1 - 0.5) * ax * tz
      = (rotPt (-θ) p).1 := by
    unfold invPartialTransform; dsimp only; field_simp; ring
  have h2 : ((invPartialTransform ax ay θ tz p).2 - 0.5) * ay * tz
      = (rotPt (-θ) p).2 := by
    unfold invPartialTransform; dsimp only; field_simp; ring
  rw [h1, h2]
  rw [Prod.mk.eta]
  exact rotPt_rotPt_neg θ p

lemma applyMatrix3x3_comp {α : Type} [CommRing α] (M1 M2 : Mat3 α) (v : Vec3 α) :
    applyMatrix3x3 M2 (applyMatrix3x3 M1 v)
      = applyMatrix3x3 (multiplyMatrix3x3 M2 M1) v := by
  cases v; cases M1; cases M2
  simp only [applyMatrix3x3, multiplyMatrix3x3, Vec3.mk.injEq]
  refine ⟨by ring, by ring, by ring⟩

lemma imagePointUnder_after_wheel (s : WidgetState) (Δ : ℤ) (c : ℝ × ℝ)
    (hax : s.aspectScaleX ≠ 0) (hay : s.aspectScaleY ≠ 0)
    (hz : s.zoom * (1.1 : ℝ) ^ Δ * 2 ≠ 0) :
    imagePointUnder (wheelEvent s Δ c) c = imagePointUnder s c := by
  show invPartialTransform s.aspectScaleX s.aspectScaleY s.crop.rotation
      (s.zoom * (1.1 : ℝ) ^ Δ * 2)
      (c.1 - (c.1 - (partialTransform s.aspectScaleX s.aspectScaleY s.crop.rotation
        (s.zoom * (1.1 : ℝ) ^ Δ * 2) (imagePointUnder s c)).1),
       c.2 - (c.2 - (partialTransform s.aspectScaleX s.aspectScaleY s.crop.rotation
        (s.zoom * (1.1 : ℝ) ^ Δ * 2) (imagePointUnder s c)).2))
      = imagePointUnder s c
  rw [show ∀ a b : ℝ, a - (a - b) = b from fun a b => by ring,
      show ∀ a b : ℝ, a - (a - b) = b from fun a b => by ring]
  rw [Prod.mk.eta]
  exact invPartial_partialTransform _ _ _ _ hax hay hz _

/-! ## Claim theorems -/

/-- C6: for all 3×3 color matrices M1, M2 and every pixel, applying M1 then
M2 equals applying the single precomputed product M2·M1 (exact in the
idealized arithmetic, hence within any floating-point tolerance); in
particular the combined-matrix optimization of `xyzToACEScg` — applying
`multiplyMatrix3x3(AP0_to_AP1, XYZ_to_AP0)` once per pixel — agrees with
applying `XYZ_to_AP0` and then `AP0_to_AP1` sequentially. -/
theorem applyMatrix_composition_law :
    (∀ (M1 M2 : Mat3 ℚ) (v : Vec3 ℚ),
        applyMatrix3x3 M2 (applyMatrix3x3 M1 v)
          = applyMatrix3x3 (multiplyMatrix3x3 M2 M1) v)
    ∧ ∀ v : Vec3 ℚ,
        xyzToACEScgPixel v
          = applyMatrix3x3 AP0_to_AP1opt (applyMatrix3x3 XYZ_to_AP0 v) := by
  refine ⟨fun M1 M2 v => applyMatrix3x3_comp M1 M2 v, fun v => ?_⟩
  rw [applyMatrix3x3_comp]
  rfl

/-- C1: with an identity calibration matrix, the ACES variant of
`cameraToACEScg` (colortransform.h lines 81-116) maps every pixel to
`AP0_to_AP1 · XYZ_to_AP0 · pixel`, as the claim states; but the variant of
`cameraToACEScg` at colortransform.h lines 177-232 instead applies
`XYZ_to_sRGB` after the calibration matrix ("DEBUG: Skip ACES transforms"),
contradicting its own doc comment: at the pixel (1,0,0) it produces the
first column of `XYZ_to_sRGB`, not the claimed ACES chain value. -/
theorem cameraToACEScg_debug_variant_bypasses_ACES :
    (∀ v : Vec3 ℚ, cameraToACEScgPixel identityMat3 v
        = applyMatrix3x3 AP0_to_AP1 (applyMatrix3x3 XYZ_to_AP0 v))
    ∧ cameraToACEScgDebugPixel identityMat3 ⟨1, 0, 0⟩
        = ⟨3.2404542, -0.9692660, 0.0556434⟩
    ∧ cameraToACEScgDebugPixel identityMat3 ⟨1, 0, 0⟩
        ≠ applyMatrix3x3 AP0_to_AP1 (applyMatrix3x3 XYZ_to_AP0 ⟨1, 0, 0⟩) := by
  refine ⟨fun v => ?_,
    by norm_num [cameraToACEScgDebugPixel, applyMatrix3x3, XYZ_to_sRGB, identityMat3],
    by norm_num [cameraToACEScgDebugPixel, applyMatrix3x3, XYZ_to_sRGB, identityMat3,
      XYZ_to_AP0, AP0_to_AP1, Vec3.mk.injEq]⟩
  have hid : applyMatrix3x3 identityMat3 v = v := by
    cases v; simp [applyMatrix3x3, identityMat3]
  rw [cameraToACEScgPixel, hid]

/-- C4: the tone-mapping stage `acesToneMap` computes, per channel,
`(x(2.51x + 0.03)) / (x(2.43x + 0.59) + 0.14)` clamped to [0,1], and its
output always lies in [0,1]. -/
theorem acesToneMap_is_rational_approximation :
    ∀ x : ℝ,
      acesToneMap x
          = clampGL ((x * (2.51 * x + 0.03)) / (x * (2.43 * x + 0.59) + 0.14)) 0 1
        ∧ 0 ≤ acesToneMap x ∧ acesToneMap x ≤ 1 := by
  intro x
  refine ⟨rfl, ?_, ?_⟩
  · exact le_min (le_max_right _ _) zero_le_one
  · exact min_le_right _ _

/-- C7: `fitToViewport` always sets zoom = 1, pan = (0,0) and rotation = 0,
regardless of the prior state. -/
theorem fitToViewport_resets_view (s : WidgetState) :
    (fitToViewport s).zoom = 1 ∧ (fitToViewport s).crop.centerX = 0 ∧
    (fitToViewport s).crop.centerY = 0 ∧ (fitToViewport s).crop.rotation = 0 :=
  ⟨rfl, rfl, rfl, rfl⟩

/-- C10: each adjustment setter modifies only its own adjustment field; the
other adjustment fields, the viewport transform state (zoom and the crop
record holding pan centerX/centerY and rotation), the aspect scale, and the
loaded image data are unchanged by every such call. -/
theorem adjustment_setters_touch_only_their_field (s : WidgetState) (e r g b c : ℝ) :
    ((setExposure s e).exposure = e ∧ (setExposure s e).wb = s.wb ∧
     (setExposure s e).contrast = s.contrast ∧ (setExposure s e).zoom = s.zoom ∧
     (setExposure s e).crop = s.crop ∧
     (setExposure s e).aspectScaleX = s.aspectScaleX ∧
     (setExposure s e).aspectScaleY = s.aspectScaleY ∧
     (setExposure s e).imgWidth = s.imgWidth ∧
     (setExposure s e).imgHeight = s.imgHeight ∧
     (setExposure s e).imgData = s.imgData) ∧
    ((setWB s r g b).wb = ⟨r, g, b⟩ ∧ (setWB s r g b).exposure = s.exposure ∧
     (setWB s r g b).contrast = s.contrast ∧ (setWB s r g b).zoom = s.zoom ∧
     (setWB s r g b).crop = s.crop ∧
     (setWB s r g b).aspectScaleX = s.aspectScaleX ∧
     (setWB s r g b).aspectScaleY = s.aspectScaleY ∧
     (setWB s r g b).imgWidth = s.imgWidth ∧
     (setWB s r g b).imgHeight = s.imgHeight ∧
     (setWB s r g b).imgData = s.imgData) ∧
    ((setContrast s c).contrast = c ∧ (setContrast s c).exposure = s.exposure ∧
     (setContrast s c).wb = s.wb ∧ (setContrast s c).zoom = s.zoom ∧
     (setContrast s c).crop = s.crop ∧
     (setContrast s c).aspectScaleX = s.aspectScaleX ∧
     (setContrast s c).aspectScaleY = s.aspectScaleY ∧
     (setContrast s c).imgWidth = s.imgWidth ∧
     (setContrast s c).imgHeight = s.imgHeight ∧
     (setContrast s c).imgData = s.imgData) :=
  ⟨⟨rfl, rfl, rfl, rfl, rfl, rfl, rfl, rfl, rfl, rfl⟩,
   ⟨rfl, rfl, rfl, rfl, rfl, rfl, rfl, rfl, rfl, rfl⟩,
   ⟨rfl, rfl, rfl, rfl, rfl, rfl, rfl, rfl, rfl, rfl⟩⟩

/-- C5 counterexample: with a loaded 4×3 image, a widget of width 800 and
height 0, and a previous aspect scale (1/2, 1/2), `updateAspectScale` does
not skip the recompute and does not retain the last valid aspect scale: it
returns a freshly computed value different from the previous one. -/
theorem updateAspectScale_zero_height_not_retained :
    updateAspectScale true 4 3 800 0 (.fin (1/2), .fin (1/2))
      ≠ (.fin (1/2), .fin (1/2)) := by
  norm_num [updateAspectScale, fdiv, fgt, Prod.ext_iff]

/-- C5 (amended): `updateAspectScale` guards only a missing texture or
zero image dimensions, and that guard resets the aspect scale to (1,1)
rather than retaining the previous value; a viewport height of 0 is not
guarded: with a texture and a nonzero image, the float division
`width()/height()` yields +∞ (IEEE, no crash), the `imageAspect >
widgetAspect` test is false, and the aspect scale is set to
`(imageAspect/∞, 1) = (0, 1)` — the previous scale is never retained. -/
theorem updateAspectScale_guard_and_zero_height (imgW imgH widgetW : ℕ)
    (old : GlFloat × GlFloat) (hiw : imgW ≠ 0) (hih : imgH ≠ 0) :
    updateAspectScale true imgW imgH widgetW 0 old = (.fin 0, .fin 1) ∧
    ∀ (wW wH : ℕ) (tex : Bool),
      updateAspectScale false imgW imgH wW wH old = (.fin 1, .fin 1) ∧
      updateAspectScale tex 0 imgH wW wH old = (.fin 1, .fin 1) ∧
      updateAspectScale tex imgW 0 wW wH old = (.fin 1, .fin 1) := by
  constructor
  · unfold updateAspectScale
    rw [if_neg (by simp [hiw, hih])]
    simp [fdiv, fgt, hih]
  · intro wW wH tex
    refine ⟨?_, ?_, ?_⟩ <;> unfold updateAspectScale <;> rw [if_pos (by simp)]

/-- C5 witness: the amended theorem evaluated at the 4×3 image, the 800×0
widget and the previous scale (1/2, 1/2). -/
theorem updateAspectScale_guard_and_zero_height_witness :
    updateAspectScale true 4 3 800 0 (.fin (1/2), .fin (1/2)) = (.fin 0, .fin 1) :=
  (updateAspectScale_guard_and_zero_height 4 3 800 (.fin (1/2), .fin (1/2))
    (by decide) (by decide)).1

lemma wheelEvent_zoom (s : WidgetState) (d : ℤ) (c : ℝ × ℝ) :
    (wheelEvent s d c).zoom = s.zoom * (1.1 : ℝ) ^ d := rfl

lemma wheelEvent_aspectScaleX (s : WidgetState) (d : ℤ) (c : ℝ × ℝ) :
    (wheelEvent s d c).aspectScaleX = s.aspectScaleX := rfl

lemma wheelEvent_aspectScaleY (s : WidgetState) (d : ℤ) (c : ℝ × ℝ) :
    (wheelEvent s d c).aspectScaleY = s.aspectScaleY := rfl

lemma wheelEvent_rotation_eq (s : WidgetState) (d : ℤ) (c : ℝ × ℝ) :
    (wheelEvent s d c).crop.rotation = s.crop.rotation := rfl

lemma wheelEvent_centerX (s : WidgetState) (d : ℤ) (c : ℝ × ℝ) :
    (wheelEvent s d c).crop.centerX
      = c.1 - (partialTransform s.aspectScaleX s.aspectScaleY s.crop.rotation
          (s.zoom * (1.1 : ℝ) ^ d * 2) (imagePointUnder s c)).1 := rfl

lemma wheelEvent_centerY (s : WidgetState) (d : ℤ) (c : ℝ × ℝ) :
    (wheelEvent s d c).crop.centerY
      = c.2 - (partialTransform s.aspectScaleX s.aspectScaleY s.crop.rotation
          (s.zoom * (1.1 : ℝ) ^ d * 2) (imagePointUnder s c)).2 := rfl

/-- C2: a wheel-zoom event preserves the image-space point under the cursor:
for every prior state with positive zoom (and an invertible transform, i.e.
nonzero aspect factors — otherwise "the image point under the cursor" is not
defined), the image point under the cursor before and after `wheelEvent`
differ by less than 1e-4 per coordinate (they are in fact exactly equal in
the idealized arithmetic). -/
theorem wheelZoom_preserves_cursor_point (s : WidgetState) (d : ℤ) (clip : ℝ × ℝ)
    (hz : 0 < s.zoom) (hax : s.aspectScaleX ≠ 0) (hay : s.aspectScaleY ≠ 0) :
    |(imagePointUnder (wheelEvent s d clip) clip).1
        - (imagePointUnder s clip).1| < 0.0001 ∧
    |(imagePointUnder (wheelEvent s d clip) clip).2
        - (imagePointUnder s clip).2| < 0.0001 := by
  have hpow : (0 : ℝ) < (1.1 : ℝ) ^ d := zpow_pos (by norm_num) d
  have hz' : s.zoom * (1.1 : ℝ) ^ d * 2 ≠ 0 := by
    have : 0 < s.zoom * (1.1 : ℝ) ^ d * 2 := by positivity
    exact ne_of_gt this
  rw [imagePointUnder_after_wheel s d clip hax hay hz']
  norm_num

/-- C2 witness: the cursor-preservation theorem at the sample state (zoom 1,
pan (0,0), rotation 0, aspect (1,1)), one wheel notch, cursor at clip
position (0.5, 0.5). -/
theorem wheelZoom_preserves_cursor_point_witness :
    |(imagePointUnder (wheelEvent sampleState 1 ((0.5 : ℝ), (0.5 : ℝ)))
          ((0.5 : ℝ), (0.5 : ℝ))).1
        - (imagePointUnder sampleState ((0.5 : ℝ), (0.5 : ℝ))).1| < 0.0001 ∧
    |(imagePointUnder (wheelEvent sampleState 1 ((0.5 : ℝ), (0.5 : ℝ)))
          ((0.5 : ℝ), (0.5 : ℝ))).2
        - (imagePointUnder sampleState ((0.5 : ℝ), (0.5 : ℝ))).2| < 0.0001 :=
  wheelZoom_preserves_cursor_point sampleState 1 ((0.5 : ℝ), (0.5 : ℝ))
    (by norm_num [sampleState]) (by norm_num [sampleState])
    (by norm_num [sampleState])

/-- C9: each wheel notch changes zoom multiplicatively by `1.1^deltaNotches`,
and starting from zoom = 1, pan = (0,0) (any rotation, any nonzero aspect
factors), `wheelEvent (+1, center)` followed by `wheelEvent (-1, center)` at
the viewport center (clip (0,0)) returns zoom and pan exactly to their
original values. -/
theorem wheelZoom_roundtrip (s : WidgetState)
    (h1 : s.zoom = 1) (hcx : s.crop.centerX = 0) (hcy : s.crop.centerY = 0)
    (hax : s.aspectScaleX ≠ 0) (hay : s.aspectScaleY ≠ 0) :
    (∀ (d : ℤ) (c : ℝ × ℝ), (wheelEvent s d c).zoom = s.zoom * (1.1 : ℝ) ^ d) ∧
    (wheelEvent (wheelEvent s 1 ((0 : ℝ), (0 : ℝ))) (-1) ((0 : ℝ), (0 : ℝ))).zoom = 1 ∧
    (wheelEvent (wheelEvent s 1 ((0 : ℝ), (0 : ℝ))) (-1)
        ((0 : ℝ), (0 : ℝ))).crop.centerX = 0 ∧
    (wheelEvent (wheelEvent s 1 ((0 : ℝ), (0 : ℝ))) (-1)
        ((0 : ℝ), (0 : ℝ))).crop.centerY = 0 := by
  have h11 : (1.1 : ℝ) ^ (1 : ℤ) * (1.1 : ℝ) ^ (-1 : ℤ) = 1 := by
    rw [← zpow_add₀ (by norm_num : (1.1 : ℝ) ≠ 0)]
    norm_num
  have hz1 : s.zoom * (1.1 : ℝ) ^ (1 : ℤ) * 2 ≠ 0 := by
    rw [h1]
    norm_num
  have hz2 : s.zoom * 2 ≠ 0 := by
    rw [h1]
    norm_num
  have himg : imagePointUnder (wheelEvent s 1 ((0 : ℝ), (0 : ℝ))) ((0 : ℝ), (0 : ℝ))
      = imagePointUnder s ((0 : ℝ), (0 : ℝ)) :=
    imagePointUnder_after_wheel s 1 ((0 : ℝ), (0 : ℝ)) hax hay hz1
  have hzz : s.zoom * (1.1 : ℝ) ^ (1 : ℤ) * (1.1 : ℝ) ^ (-1 : ℤ) = s.zoom := by
    rw [mul_assoc, h11, mul_one]
  have hpartial : partialTransform s.aspectScaleX s.aspectScaleY s.crop.rotation
        (s.zoom * 2) (imagePointUnder s ((0 : ℝ), (0 : ℝ)))
      = ((0 : ℝ) - s.crop.centerX, (0 : ℝ) - s.crop.centerY) :=
    partialTransform_invPartial s.aspectScaleX s.aspectScaleY s.crop.rotation
      (s.zoom * 2) hax hay hz2 ((0 : ℝ) - s.crop.centerX, (0 : ℝ) - s.crop.centerY)
  refine ⟨fun d c => wheelEvent_zoom s d c, ?_, ?_, ?_⟩
  · rw [wheelEvent_zoom, wheelEvent_zoom, hzz, h1]
  · rw [wheelEvent_centerX, wheelEvent_aspectScaleX, wheelEvent_aspectScaleY,
        wheelEvent_rotation_eq, wheelEvent_zoom, himg, hzz, hpartial, hcx]
    norm_num
  · rw [wheelEvent_centerY, wheelEvent_aspectScaleX, wheelEvent_aspectScaleY,
        wheelEvent_rotation_eq, wheelEvent_zoom, himg, hzz, hpartial, hcy]
    norm_num

/-- C9 witness: the round-trip theorem at the sample state: after a +1 notch
and a -1 notch at the viewport center, zoom is 1 and pan is (0,0). -/
theorem wheelZoom_roundtrip_witness :
    (wheelEvent (wheelEvent sampleState 1 ((0 : ℝ), (0 : ℝ))) (-1)
        ((0 : ℝ), (0 : ℝ))).zoom = 1 ∧
    (wheelEvent (wheelEvent sampleState 1 ((0 : ℝ), (0 : ℝ))) (-1)
        ((0 : ℝ), (0 : ℝ))).crop.centerX = 0 ∧
    (wheelEvent (wheelEvent sampleState 1 ((0 : ℝ), (0 : ℝ))) (-1)
        ((0 : ℝ), (0 : ℝ))).crop.centerY = 0 :=
  (wheelZoom_roundtrip sampleState (by norm_num [sampleState])
    (by norm_num [sampleState]) (by norm_num [sampleState])
    (by norm_num [sampleState]) (by norm_num [sampleState])).2

/-- C3: in the per-pixel shading step, contrast is applied per channel as
`(color - midGray) * contrastMultiplier + midGray` with midGray = 0.18, any
negative result is clamped to zero, 0.18 is a fixed point of the adjustment
for every contrast value, and this adjusted value is what enters the display
transform (ACEScg→Rec.709 matrix, then tone map, then gamma). -/
theorem fragShade_contrast_midgray_clamped :
    (∀ k x : ℝ, contrastAdjust k x = max 0 ((x - 0.18) * k + 0.18)) ∧
    (∀ k x : ℝ, 0 ≤ contrastAdjust k x) ∧
    (∀ k : ℝ, contrastAdjust k 0.18 = 0.18) ∧
    (∀ (wb : Vec3 ℝ) (e k : ℝ) (t : Vec3 ℝ),
      fragShade wb e k t =
        (let adj : Vec3 ℝ := ⟨contrastAdjust k (t.r * wb.r * (2 : ℝ) ^ e),
                              contrastAdjust k (t.g * wb.g * (2 : ℝ) ^ e),
                              contrastAdjust k (t.b * wb.b * (2 : ℝ) ^ e)⟩
         let rec709 := applyMatrix3x3 ACEScg_to_Rec709 adj
         ⟨linearToSRGB (acesToneMap rec709.r),
          linearToSRGB (acesToneMap rec709.g),
          linearToSRGB (acesToneMap rec709.b)⟩)) := by
  refine ⟨fun k x => rfl, fun k x => le_max_left _ _, fun k => ?_, fun wb e k t => rfl⟩
  unfold contrastAdjust
  norm_num

/-- C8: the sRGB gamma encoding maps 0 to 0 and 1 to 1, and at the branch
point 0.0031308 the linear branch `12.92*x` and the power branch
`1.055*x^(1/2.4) - 0.055` agree within 1e-6. -/
theorem linearToSRGB_endpoints_and_knee :
    linearToSRGB 0 = 0 ∧ linearToSRGB 1 = 1 ∧
    |12.92 * (0.0031308 : ℝ)
        - (1.055 * (0.0031308 : ℝ) ^ ((1 : ℝ) / 2.4) - 0.055)| < 0.000001 := by
  refine ⟨?_, ?_, ?_⟩
  · simp only [linearToSRGB, mixGL, stepGL]
    rw [if_pos (by norm_num : (0 : ℝ) < 0.0031308)]
    ring
  · simp only [linearToSRGB, mixGL, stepGL]
    rw [if_neg (by norm_num : ¬ (1 : ℝ) < 0.0031308)]
    rw [Real.one_rpow]
    norm_num
  · have hx0 : (0 : ℝ) ≤ 0.0031308 := by norm_num
    set r : ℝ := (0.0031308 : ℝ) ^ ((1 : ℝ) / 2.4) with hrdef
    have hr0 : 0 ≤ r := Real.rpow_nonneg hx0 _
    have h12 : r ^ (12 : ℕ) = (0.0031308 : ℝ) ^ (5 : ℕ) := by
      rw [hrdef, ← Real.rpow_natCast ((0.0031308 : ℝ) ^ ((1 : ℝ) / 2.4)) 12,
          ← Real.rpow_mul hx0,
          show ((1 : ℝ) / 2.4) * ((12 : ℕ) : ℝ) = ((5 : ℕ) : ℝ) by push_cast; norm_num,
          Real.rpow_natCast]
    have hlo : (0.0904734 : ℝ) ≤ r := by
      have h : (0.0904734 : ℝ) ^ (12 : ℕ) ≤ r ^ (12 : ℕ) := by
        rw [h12]
        norm_num
      exact le_of_pow_le_pow_left₀ (by norm_num) hr0 h
    have hhi : r ≤ 0.0904743 := by
      have h : r ^ (12 : ℕ) ≤ (0.0904743 : ℝ) ^ (12 : ℕ) := by
        rw [h12]
        norm_num
      exact le_of_pow_le_pow_left₀ (by norm_num) (by norm_num) h
    rw [abs_lt]
    constructor <;> linarith
